import Mathlib

/-
Verification of the command-translation and subprocess-orchestration layer
in src/cmd/pantheon.go (package cmd of the juicefs repository).

The Go file is embedded shallowly:
  * the flag schema and the parts of *cli.Context read by the code become
    the structures FlagSpec and CliContext;
  * buildFlagArgs becomes a pure function over CliContext;
  * validateAbsolutePath becomes a function returning an Option PathError
    (some e models the fatal logger.Fatalf exits);
  * metaDirWithoutQuery is translated verbatim over the rune sequence;
  * the four subcommand actions (pantheonFormat, pantheonMount,
    pantheonUmount, pantheonCheckpoint) become functions from a filesystem
    existence oracle and a CliContext to the target argument list they hand
    to executeJuicefsCommand, or the PathError that aborted them;
  * executeJuicefsCommand becomes a function from the child-process result
    (the value of cmd.Run) to the ordered event trace of the wrapper and
    its final outcome.
-/

namespace Pantheon

/-- Kinds of CLI flags handled by the type switch inside buildFlagArgs in
src/cmd/pantheon.go.  The six variants mirror the six supported dynamic
types in the switch statement there; any other dynamic type hits the fatal
default branch, so the universe of supported schemas is exactly this
closed set of kinds. -/
inductive FlagKind where
  | boolKind
  | stringKind
  | intKind
  | int64Kind
  | float64Kind
  | stringSliceKind
  deriving DecidableEq

/-- One entry of a command's flag schema: the flag's primary name, which is
what the Go source reads out with flag.Names()[0], and its kind. -/
structure FlagSpec where
  name : String
  kind : FlagKind
  deriving DecidableEq

/-- Shallow embedding of the parts of *cli.Context read by
src/cmd/pantheon.go: the command's declared flag schema in declaration
order (c.Command.Flags), the set-ness predicate (c.IsSet), the typed
getters (c.Bool, c.String, c.Int, c.Int64, c.Float64, c.StringSlice), and
the positional arguments (c.Args()).  The float getter is stored already
rendered through the fmt package's fixed-point conversion, because that
rendering is Go library code outside this repository and no property here
inspects the digits it produces. -/
structure CliContext where
  flags : List FlagSpec
  isSet : String → Bool
  getBool : String → Bool
  getString : String → String
  getInt : String → Int
  getInt64 : String → Int
  getFloat64Rendered : String → String
  getStringSlice : String → List String
  args : List String

/-- Tokens contributed by one schema flag: the body of the loop in
buildFlagArgs.  A flag that the invocation does not mark as set contributes
nothing; a set flag is rendered according to its kind exactly as in the Go
type switch (bare token for a true boolean, nothing for a false boolean,
one name=value token for string/int/int64/float64, and one token per
element for a string slice). -/
def renderFlag (c : CliContext) (f : FlagSpec) : List String :=
  if c.isSet f.name then
    match f.kind with
    | FlagKind.boolKind => if c.getBool f.name then ["--" ++ f.name] else []
    | FlagKind.stringKind => ["--" ++ f.name ++ "=" ++ c.getString f.name]
    | FlagKind.intKind => ["--" ++ f.name ++ "=" ++ toString (c.getInt f.name)]
    | FlagKind.int64Kind => ["--" ++ f.name ++ "=" ++ toString (c.getInt64 f.name)]
    | FlagKind.float64Kind => ["--" ++ f.name ++ "=" ++ c.getFloat64Rendered f.name]
    | FlagKind.stringSliceKind =>
        (c.getStringSlice f.name).map (fun v => "--" ++ f.name ++ "=" ++ v)
  else []

/-- buildFlagArgs from src/cmd/pantheon.go: iterate the command's flag
schema in declared order, appending each set flag's rendered tokens to the
accumulated argument list. -/
def buildFlagArgs (c : CliContext) : List String :=
  c.flags.foldl (fun args f => args ++ renderFlag c f) []

/-- Positional argument access, c.Args().Get(i): the i-th positional
argument, or the empty string when fewer arguments were given. -/
def argGet (c : CliContext) (i : Nat) : String :=
  c.args.getD i ""

/-- filepath.IsAbs on a Unix target: the path is absolute exactly when it
starts with the path separator character. -/
def isAbs (path : String) : Bool :=
  match path.toList with
  | [] => false
  | ch :: _ => ch == '/'

/-- The three fatal conditions of validateAbsolutePath, in the order the
Go code tests them. -/
inductive PathError where
  | notAbsolute
  | pathMissing
  | pathAlreadyExists
  deriving DecidableEq

/-- validateAbsolutePath from src/cmd/pantheon.go.  The filesystem is
abstracted by the oracle fs, where fs p = true models os.Stat(p)
succeeding (err == nil).  A some result models the corresponding fatal
logger.Fatalf call; none means validation passed. -/
def validateAbsolutePath (fs : String → Bool) (path : String) (shouldExist : Bool) :
    Option PathError :=
  if !(isAbs path) then some PathError.notAbsolute
  else
    let pathExists := fs path
    if shouldExist && !pathExists then some PathError.pathMissing
    else if !shouldExist && pathExists then some PathError.pathAlreadyExists
    else none

/-- metaDirWithoutQuery from src/cmd/pantheon.go: scan the string's rune
sequence and cut it at the first question mark, keeping the part before
it; a string without a question mark is returned unchanged. -/
def metaDirWithoutQuery (metaDir : String) : String :=
  String.mk (metaDir.toList.takeWhile (fun ch => ch != '?'))

/-- Whether a string contains a question mark anywhere. -/
def hasQuery (s : String) : Bool :=
  s.toList.any (fun ch => ch == '?')

/-- pantheonFormat from src/cmd/pantheon.go, modelled up to the argument
list it hands to executeJuicefsCommand: validate that the meta directory
stripped of its query suffix is absolute and does not exist, then build
the target argument list with the badger scheme prefix on the original
unstripped meta directory, the volume name, the forced trash-days token,
and the reconstructed caller flags. -/
def pantheonFormat (fs : String → Bool) (c : CliContext) : Except PathError (List String) :=
  match validateAbsolutePath fs (metaDirWithoutQuery (argGet c 0)) false with
  | some e => Except.error e
  | none =>
      Except.ok (["format", "badger://" ++ argGet c 0, argGet c 1, "--trash-days=999"]
        ++ buildFlagArgs c)

/-- pantheonMount from src/cmd/pantheon.go, modelled up to the argument
list it hands to executeJuicefsCommand: validate that the stripped meta
directory is absolute and exists, then build the target argument list. -/
def pantheonMount (fs : String → Bool) (c : CliContext) : Except PathError (List String) :=
  match validateAbsolutePath fs (metaDirWithoutQuery (argGet c 0)) true with
  | some e => Except.error e
  | none =>
      Except.ok (["mount", "badger://" ++ argGet c 0, argGet c 1] ++ buildFlagArgs c)

/-- pantheonUmount from src/cmd/pantheon.go: no path validation, target
argument list only. -/
def pantheonUmount (c : CliContext) : Except PathError (List String) :=
  Except.ok (["umount", argGet c 0] ++ buildFlagArgs c)

/-- pantheonCheckpoint from src/cmd/pantheon.go: validate the old meta
directory (absolute, must exist) and then the new one (absolute, must not
exist), each passed to the validator exactly as given on the command line,
then build the clone argument list.  No flags are forwarded. -/
def pantheonCheckpoint (fs : String → Bool) (c : CliContext) : Except PathError (List String) :=
  match validateAbsolutePath fs (argGet c 0) true with
  | some e => Except.error e
  | none =>
      match validateAbsolutePath fs (argGet c 1) false with
      | some e => Except.error e
      | none => Except.ok ["clone", argGet c 0, argGet c 1]

/-- Follows the spec's words, for comparison with pantheonCheckpoint: the
spec's query-suffix-stripping rule says every path value is truncated at
the first question mark before validation, which for the checkpoint
subcommand would mean validating the stripped old and new meta locations
while still passing the originals downstream. -/
def checkpointPerSpecStripping (fs : String → Bool) (c : CliContext) :
    Except PathError (List String) :=
  match validateAbsolutePath fs (metaDirWithoutQuery (argGet c 0)) true with
  | some e => Except.error e
  | none =>
      match validateAbsolutePath fs (metaDirWithoutQuery (argGet c 1)) false with
      | some e => Except.error e
      | none => Except.ok ["clone", argGet c 0, argGet c 1]

/-- Result of cmd.Run() in executeJuicefsCommand: the child exited with
status zero (Run returns nil), the child exited with a non-zero status
(Run returns an exec.ExitError carrying that exit code), or the run failed
for some other reason (any other error value). -/
inductive RunResult where
  | ok
  | exitErr (code : Int)
  | otherErr
  deriving DecidableEq

/-- Observable events of executeJuicefsCommand, in program order:
resolving the current executable, subscribing to interrupt and termination
signals, spawning the child and waiting for it (cmd.Run), cancelling the
signal subscription (signal.Stop), terminating the wrapper with an exit
code (os.Exit), and returning to the caller. -/
inductive ExecEvent where
  | resolveExec
  | signalNotify
  | runChild (args : List String)
  | signalStop
  | exitProcess (code : Int)
  | returnToCaller
  deriving DecidableEq

/-- Final outcome of executeJuicefsCommand: the wrapper called os.Exit
with the child's code, returned nil, returned the non-ExitError error, or
died in the fatal executable-resolution branch. -/
inductive ExecOutcome where
  | exit (code : Int)
  | retOk
  | retErr
  | fatalError
  deriving DecidableEq

/-- executeJuicefsCommand from src/cmd/pantheon.go as a trace semantics:
given the argument list, whether os.Executable succeeded, and what
cmd.Run returned, produce the ordered event trace of the wrapper together
with its final outcome.  On the success path the code resolves the
executable, subscribes to signals, runs the child, cancels the
subscription, and only then either exits with the child's code (when Run
returned an ExitError) or returns. -/
def executeJuicefsCommand (args : List String) (execOk : Bool) (r : RunResult) :
    List ExecEvent × ExecOutcome :=
  if execOk then
    ([ExecEvent.resolveExec, ExecEvent.signalNotify, ExecEvent.runChild args,
        ExecEvent.signalStop] ++
      (match r with
       | RunResult.exitErr code => [ExecEvent.exitProcess code]
       | _ => [ExecEvent.returnToCaller]),
     match r with
     | RunResult.exitErr code => ExecOutcome.exit code
     | RunResult.ok => ExecOutcome.retOk
     | RunResult.otherErr => ExecOutcome.retErr)
  else ([ExecEvent.resolveExec], ExecOutcome.fatalError)

/-- The single event following the signal-subscription teardown in the
trace of executeJuicefsCommand: the os.Exit call for a child that exited
non-zero, the plain return otherwise. -/
def terminalExecEvent (r : RunResult) : ExecEvent :=
  match r with
  | RunResult.exitErr code => ExecEvent.exitProcess code
  | _ => ExecEvent.returnToCaller

/-- A resolved flag value as stored by the CLI parsing layer, one variant
per supported flag kind.  The float value is carried in its fixed-point
rendered form, matching the getFloat64Rendered field of CliContext. -/
inductive FlagValue where
  | ofBool (b : Bool)
  | ofString (s : String)
  | ofInt (n : Int)
  | ofInt64 (n : Int)
  | ofFloat64 (rendered : String)
  | ofStringSlice (vs : List String)
  deriving DecidableEq

/-- Look a flag name up in the list of caller-performed flag settings,
in the order the caller performed them: the first setting whose name
matches. -/
def lookupVal (sets : List (String × FlagValue)) (n : String) : Option FlagValue :=
  ((sets.filter (fun p => p.1 == n)).head?).map Prod.snd

/-- Coercion of a stored value to the boolean getter's result; a missing
or differently-typed value yields the zero value, as c.Bool does. -/
def boolOfVal : Option FlagValue → Bool
  | some (FlagValue.ofBool b) => b
  | _ => false

/-- Coercion of a stored value to the string getter's result. -/
def stringOfVal : Option FlagValue → String
  | some (FlagValue.ofString s) => s
  | _ => ""

/-- Coercion of a stored value to the int getter's result. -/
def intOfVal : Option FlagValue → Int
  | some (FlagValue.ofInt n) => n
  | _ => 0

/-- Coercion of a stored value to the int64 getter's result. -/
def int64OfVal : Option FlagValue → Int
  | some (FlagValue.ofInt64 n) => n
  | _ => 0

/-- Coercion of a stored value to the rendered float getter's result. -/
def floatStrOfVal : Option FlagValue → String
  | some (FlagValue.ofFloat64 r) => r
  | _ => "0.000000"

/-- Coercion of a stored value to the string-slice getter's result. -/
def sliceOfVal : Option FlagValue → List String
  | some (FlagValue.ofStringSlice vs) => vs
  | _ => []

/-- The CliContext induced by a flag schema together with the list of flag
settings the caller performed, in the order the caller performed them: a
flag is set exactly when some setting names it, and each typed getter
reads the first matching setting.  This models the parsed CLI state that
urfave/cli hands to the actions in src/cmd/pantheon.go. -/
def contextOfSets (flags : List FlagSpec) (sets : List (String × FlagValue)) : CliContext :=
  ⟨flags,
   fun n => (lookupVal sets n).isSome,
   fun n => boolOfVal (lookupVal sets n),
   fun n => stringOfVal (lookupVal sets n),
   fun n => intOfVal (lookupVal sets n),
   fun n => int64OfVal (lookupVal sets n),
   fun n => floatStrOfVal (lookupVal sets n),
   fun n => sliceOfVal (lookupVal sets n),
   []⟩

/-- Replace the flag schema of a context, keeping the parsed state. -/
def setFlags (c : CliContext) (fs : List FlagSpec) : CliContext :=
  ⟨fs, c.isSet, c.getBool, c.getString, c.getInt, c.getInt64,
   c.getFloat64Rendered, c.getStringSlice, c.args⟩

/- Concrete filesystem oracles, contexts and argument lists used in the
counterexamples and witnesses below. -/

/-- Filesystem oracle under which no path exists. -/
def fsNone : String → Bool := fun _ => false

/-- Filesystem oracle under which exactly the path /a exists. -/
def fsOnlySlashA : String → Bool := fun p => p == "/a"

/-- Filesystem oracle under which exactly the path /ex exists. -/
def fsOnlyEx : String → Bool := fun p => p == "/ex"

/-- Filesystem oracle under which exactly the path /data/myfs exists. -/
def fsMyfsExists : String → Bool := fun p => p == "/data/myfs"

/-- Filesystem oracle under which exactly the query-carrying string /q?z
exists; it agrees with fsNone on every query-free path. -/
def fsQueryOnly : String → Bool := fun p => p == "/q?z"

/-- Modelled from the spec: the flag schema of the pantheon format
subcommand is cmdFormat().Flags, inherited from the generic format
command, whose definition is outside the given source; per the spec's
flag-inheritance rule it contains an integer trash-days flag that the
caller may set. -/
def trashDaysFlag : FlagSpec := ⟨"trash-days", FlagKind.intKind⟩

/-- An invocation of the format subcommand in which the caller set
trash-days to 5, on meta directory /data/myfs and volume name myfs. -/
def ctxFormatTrash : CliContext :=
  ⟨[trashDaysFlag],
   fun n => n == "trash-days",
   fun _ => false,
   fun _ => "",
   fun n => if n == "trash-days" then 5 else 0,
   fun _ => 0,
   fun _ => "0.000000",
   fun _ => [],
   ["/data/myfs", "myfs"]⟩

/-- The argument list the format translation produces for ctxFormatTrash. -/
def formatTrashArgs : List String :=
  ["format", "badger:///data/myfs", "myfs", "--trash-days=999", "--trash-days=5"]

/-- A checkpoint invocation whose old meta location carries a query
suffix: positionals /a?x=1 and /b, no flags set. -/
def ctxCheckpointQuery : CliContext :=
  ⟨[], fun _ => false, fun _ => false, fun _ => "", fun _ => 0, fun _ => 0,
   fun _ => "0.000000", fun _ => [], ["/a?x=1", "/b"]⟩

/-- A format or mount invocation whose meta location carries a query
suffix /m?z=1, with no flags set. -/
def ctxMetaQuery : CliContext :=
  ⟨[], fun _ => false, fun _ => false, fun _ => "", fun _ => 0, fun _ => 0,
   fun _ => "0.000000", fun _ => [], ["/m?z=1", "n"]⟩

/-- A format or mount invocation on meta location /data/myfs?cache=1 and
second positional myfs, with no flags set. -/
def ctxMetaCache : CliContext :=
  ⟨[], fun _ => false, fun _ => false, fun _ => "", fun _ => 0, fun _ => 0,
   fun _ => "0.000000", fun _ => [], ["/data/myfs?cache=1", "myfs"]⟩

/-- The argument list the format translation produces for ctxMetaCache. -/
def formatCacheArgs : List String :=
  ["format", "badger:///data/myfs?cache=1", "myfs", "--trash-days=999"]

/-- The argument list the mount translation produces for ctxMetaCache. -/
def mountCacheArgs : List String :=
  ["mount", "badger:///data/myfs?cache=1", "myfs"]

/-- A boolean flag named quiet. -/
def quietFlag : FlagSpec := ⟨"quiet", FlagKind.boolKind⟩

/-- A boolean flag named verbose. -/
def verboseFlag : FlagSpec := ⟨"verbose", FlagKind.boolKind⟩

/-- A context in which every flag is marked set and the boolean getter
resolves verbose to true and every other name, quiet included, to
false. -/
def boolPairCtx : CliContext :=
  ⟨[verboseFlag, quietFlag],
   fun _ => true,
   fun n => n == "verbose",
   fun _ => "",
   fun _ => 0,
   fun _ => 0,
   fun _ => "0.000000",
   fun _ => [],
   []⟩

/-- A repeated-string flag named cache-dir. -/
def cacheDirFlag : FlagSpec := ⟨"cache-dir", FlagKind.stringSliceKind⟩

/-- A context in which cache-dir is set to the two values d1 and d2. -/
def sliceCtx : CliContext :=
  ⟨[cacheDirFlag],
   fun _ => true,
   fun _ => false,
   fun _ => "",
   fun _ => 0,
   fun _ => 0,
   fun _ => "0.000000",
   fun n => if n == "cache-dir" then ["d1", "d2"] else [],
   []⟩

/-- A string flag named bucket. -/
def bucketFlag : FlagSpec := ⟨"bucket", FlagKind.stringKind⟩

/-- A context in which bucket is set and resolves to the empty string. -/
def emptyStringCtx : CliContext :=
  ⟨[bucketFlag],
   fun _ => true,
   fun _ => false,
   fun _ => "",
   fun _ => 0,
   fun _ => 0,
   fun _ => "0.000000",
   fun _ => [],
   []⟩

/-- A two-flag schema: a boolean debug flag followed by a string bucket
flag. -/
def debugBucketFlags : List FlagSpec :=
  [⟨"debug", FlagKind.boolKind⟩, ⟨"bucket", FlagKind.stringKind⟩]

/-- The caller sets bucket first, then debug. -/
def setsBucketFirst : List (String × FlagValue) :=
  [("bucket", FlagValue.ofString "b1"), ("debug", FlagValue.ofBool true)]

/-- The caller sets debug first, then bucket. -/
def setsDebugFirst : List (String × FlagValue) :=
  [("debug", FlagValue.ofBool true), ("bucket", FlagValue.ofString "b1")]

/- Helper lemmas. -/

theorem foldl_append_tokens (g : FlagSpec → List String) :
    ∀ (l : List FlagSpec) (init : List String),
      l.foldl (fun args f => args ++ g f) init = init ++ (l.map g).flatten := by
  intro l
  induction l with
  | nil => intro init; simp
  | cons f t ih =>
      intro init
      simp only [List.foldl_cons, List.map_cons, List.flatten_cons]
      rw [ih, List.append_assoc]

theorem buildFlagArgs_eq_flatten (c : CliContext) :
    buildFlagArgs c = (c.flags.map (renderFlag c)).flatten := by
  unfold buildFlagArgs
  rw [foldl_append_tokens]
  simp

theorem renderFlag_setFlags (c : CliContext) (fs : List FlagSpec) (f : FlagSpec) :
    renderFlag (setFlags c fs) f = renderFlag c f := rfl

theorem filter_key_length (s : List (String × FlagValue)) (n : String)
    (hnd : (s.map Prod.fst).Nodup) :
    (s.filter (fun p => p.1 == n)).length ≤ 1 := by
  induction s with
  | nil => simp
  | cons a t ih =>
      rw [List.map_cons, List.nodup_cons] at hnd
      obtain ⟨hnotin, hndt⟩ := hnd
      by_cases h : a.1 == n
      · have han : a.1 = n := eq_of_beq h
        have hempty : t.filter (fun p => p.1 == n) = [] := by
          rw [List.filter_eq_nil_iff]
          intro b hb hbeq
          have hbn : b.1 = n := eq_of_beq hbeq
          exact hnotin (han ▸ hbn ▸ List.mem_map_of_mem Prod.fst hb)
        simp [List.filter_cons, h, hempty]
      · simp only [List.filter_cons, h, Bool.false_eq_true, if_false]
        exact ih hndt

theorem perm_short_eq (l₁ l₂ : List (String × FlagValue)) (hp : l₁.Perm l₂)
    (hlen : l₁.length ≤ 1) : l₁ = l₂ := by
  match l₁ with
  | [] => exact hp.nil_eq
  | [a] => exact (List.perm_singleton.mp hp.symm).symm
  | a :: b :: t => simp at hlen

theorem lookupVal_perm (s₁ s₂ : List (String × FlagValue)) (hp : s₁.Perm s₂)
    (hnd : (s₁.map Prod.fst).Nodup) (n : String) :
    lookupVal s₁ n = lookupVal s₂ n := by
  unfold lookupVal
  rw [perm_short_eq _ _ (hp.filter _) (filter_key_length s₁ n hnd)]

theorem renderFlag_congr (c₁ c₂ : CliContext) (f : FlagSpec)
    (h1 : c₁.isSet f.name = c₂.isSet f.name)
    (h2 : c₁.getBool f.name = c₂.getBool f.name)
    (h3 : c₁.getString f.name = c₂.getString f.name)
    (h4 : c₁.getInt f.name = c₂.getInt f.name)
    (h5 : c₁.getInt64 f.name = c₂.getInt64 f.name)
    (h6 : c₁.getFloat64Rendered f.name = c₂.getFloat64Rendered f.name)
    (h7 : c₁.getStringSlice f.name = c₂.getStringSlice f.name) :
    renderFlag c₁ f = renderFlag c₂ f := by
  unfold renderFlag
  rw [h1]
  cases c₂.isSet f.name with
  | false => rfl
  | true =>
      simp only [if_true]
      cases f.kind <;> simp [h2, h3, h4, h5, h6, h7]

theorem validateAbsolutePath_fs_congr (fs₁ fs₂ : String → Bool) (path : String)
    (shouldExist : Bool) (h : fs₁ path = fs₂ path) :
    validateAbsolutePath fs₁ path shouldExist = validateAbsolutePath fs₂ path shouldExist := by
  unfold validateAbsolutePath
  rw [h]

theorem hasQuery_metaDirWithoutQuery (s : String) :
    hasQuery (metaDirWithoutQuery s) = false := by
  unfold hasQuery metaDirWithoutQuery
  show (s.toList.takeWhile (fun ch => ch != '?')).any (fun ch => ch == '?') = false
  rw [List.any_eq_false]
  intro ch hch
  have := List.mem_takeWhile_imp hch
  simpa using this

theorem badger_scheme_ne_trash_token (x : String) :
    "badger://" ++ x ≠ "--trash-days=999" := by
  intro h
  have hd := congrArg String.data h
  rw [String.data_append] at hd
  have hb : "badger://".data = 'b' :: "adger://".data := rfl
  rw [hb] at hd
  have : ('b' :: ("adger://".data ++ x.data)).head? = "--trash-days=999".data.head? := by
    rw [← hd]; rfl
  simp [String.data] at this

/- Claim theorems. -/

/-- C3: for every argument list, if the spawned child process exits with a
non-zero status code, the wrapper terminates with exactly that status code
(never masked or remapped); if the child exits with status zero, the
runner returns success without forcing an exit. -/
theorem executeJuicefsCommand_exit_passthrough (args : List String) (code : Int)
    (_hnz : code ≠ 0) :
    (executeJuicefsCommand args true (RunResult.exitErr code)).2 = ExecOutcome.exit code
    ∧ (executeJuicefsCommand args true RunResult.ok).2 = ExecOutcome.retOk :=
  ⟨rfl, rfl⟩

/-- Witness for C3: a child exiting with status 137 makes the wrapper exit
with status 137, and a child exiting with status zero makes the runner
return success. -/
theorem executeJuicefsCommand_exit_passthrough_witness :
    (executeJuicefsCommand ["mount"] true (RunResult.exitErr 137)).2 = ExecOutcome.exit 137
    ∧ (executeJuicefsCommand ["mount"] true RunResult.ok).2 = ExecOutcome.retOk :=
  executeJuicefsCommand_exit_passthrough ["mount"] 137 (by decide)

/-- C9: in the subprocess runner, the signal subscription established
before waiting on the child is torn down immediately after the wait call
returns, on every exit path: the trace always reads subscription, wait,
teardown, and only then the single terminal event (the exit with the
child's code, or the return), and that terminal event is never the
teardown itself. -/
theorem signal_teardown_every_path (args : List String) (r : RunResult) :
    (executeJuicefsCommand args true r).1
      = [ExecEvent.resolveExec, ExecEvent.signalNotify, ExecEvent.runChild args,
         ExecEvent.signalStop, terminalExecEvent r]
    ∧ terminalExecEvent r ≠ ExecEvent.signalStop := by
  cases r <;> exact ⟨rfl, by simp [terminalExecEvent]⟩

/-- Witness for C9: the trace for a child that exited with status 137. -/
theorem signal_teardown_every_path_witness :
    (executeJuicefsCommand ["umount"] true (RunResult.exitErr 137)).1
      = [ExecEvent.resolveExec, ExecEvent.signalNotify, ExecEvent.runChild ["umount"],
         ExecEvent.signalStop, terminalExecEvent (RunResult.exitErr 137)]
    ∧ terminalExecEvent (RunResult.exitErr 137) ≠ ExecEvent.signalStop :=
  signal_teardown_every_path ["umount"] (RunResult.exitErr 137)

/-- C4: for an absolute path p, validate(p, mustExist=true) fails exactly
when p does not exist and validate(p, mustExist=false) fails exactly when
p exists; for a non-absolute p, validate fails regardless of existence and
regardless of mustExist.  The two biconditionals are stated for absolute
paths, as the claim's own final clause dictates (a non-absolute path fails
both checks independently of existence). -/
theorem validateAbsolutePath_spec (fs : String → Bool) (p : String) :
    (isAbs p = true →
       ((validateAbsolutePath fs p true).isSome ↔ fs p = false)
       ∧ ((validateAbsolutePath fs p false).isSome ↔ fs p = true))
    ∧ (isAbs p = false → ∀ mustExist : Bool, (validateAbsolutePath fs p mustExist).isSome) := by
  constructor
  · intro habs
    constructor <;>
      · unfold validateAbsolutePath
        rw [habs]
        cases h : fs p <;> simp [h]
  · intro habs mustExist
    unfold validateAbsolutePath
    rw [habs]
    simp

/-- Witness for C4: under the oracle where only /ex exists, the
must-exist check on the absolute path /ex is characterised by the
biconditional, and any check on the non-absolute path relative fails. -/
theorem validateAbsolutePath_spec_witness :
    ((validateAbsolutePath fsOnlyEx "/ex" true).isSome ↔ fsOnlyEx "/ex" = false)
    ∧ (validateAbsolutePath fsOnlyEx "relative" true).isSome :=
  ⟨((validateAbsolutePath_spec fsOnlyEx "/ex").1 (by decide)).1,
   (validateAbsolutePath_spec fsOnlyEx "relative").2 (by decide) true⟩

/-- C6: a boolean flag marked as set with resolved value false contributes
no token (dropping it from the schema leaves the reconstructed argument
list unchanged), while a set boolean flag with value true contributes the
bare token for its name with no value part. -/
theorem boolFlag_rendering (c : CliContext) (f : FlagSpec)
    (hk : f.kind = FlagKind.boolKind) (hs : c.isSet f.name = true) :
    (c.getBool f.name = false →
        renderFlag c f = []
        ∧ ∀ (pre post : List FlagSpec),
            buildFlagArgs (setFlags c (pre ++ f :: post))
              = buildFlagArgs (setFlags c (pre ++ post)))
    ∧ (c.getBool f.name = true → renderFlag c f = ["--" ++ f.name]) := by
  have hfun : ∀ l : List FlagSpec, renderFlag (setFlags c l) = renderFlag c :=
    fun l => funext (fun g => renderFlag_setFlags c l g)
  constructor
  · intro hv
    have hr : renderFlag c f = [] := by
      simp [renderFlag, hs, hk, hv]
    refine ⟨hr, ?_⟩
    intro pre post
    rw [buildFlagArgs_eq_flatten, buildFlagArgs_eq_flatten]
    show ((pre ++ f :: post).map (renderFlag (setFlags c (pre ++ f :: post)))).flatten
      = ((pre ++ post).map (renderFlag (setFlags c (pre ++ post)))).flatten
    rw [hfun, hfun, List.map_append, List.map_append, List.map_cons,
      List.flatten_append, List.flatten_append, List.flatten_cons, hr]
    simp
  · intro hv
    simp [renderFlag, hs, hk, hv]

/-- Witness for C6: in a context where quiet resolves to false and verbose
to true, both marked set, the quiet flag contributes nothing (and can be
dropped from the schema without changing the output), while verbose is
rendered as the bare token. -/
theorem boolFlag_rendering_witness :
    (renderFlag boolPairCtx quietFlag = []
      ∧ buildFlagArgs (setFlags boolPairCtx ([verboseFlag] ++ quietFlag :: []))
          = buildFlagArgs (setFlags boolPairCtx ([verboseFlag] ++ [])))
    ∧ renderFlag boolPairCtx verboseFlag = ["--verbose"] :=
  ⟨⟨((boolFlag_rendering boolPairCtx quietFlag rfl rfl).1 (by decide)).1,
    ((boolFlag_rendering boolPairCtx quietFlag rfl rfl).1 (by decide)).2 [verboseFlag] []⟩,
   (boolFlag_rendering boolPairCtx verboseFlag rfl rfl).2 (by decide)⟩

/-- C7: a repeated-string flag set with a list of n values contributes
exactly n tokens, each of the form name=value with the double-dash prefix,
in the same order as the input list. -/
theorem stringSliceFlag_tokens (c : CliContext) (f : FlagSpec)
    (hk : f.kind = FlagKind.stringSliceKind) (hs : c.isSet f.name = true) :
    renderFlag c f = (c.getStringSlice f.name).map (fun v => "--" ++ f.name ++ "=" ++ v)
    ∧ (renderFlag c f).length = (c.getStringSlice f.name).length := by
  have h : renderFlag c f
      = (c.getStringSlice f.name).map (fun v => "--" ++ f.name ++ "=" ++ v) := by
    simp [renderFlag, hs, hk]
  exact ⟨h, by rw [h, List.length_map]⟩

/-- Witness for C7: cache-dir set to the two values d1 and d2 yields
exactly the two individually prefixed tokens, in order. -/
theorem stringSliceFlag_tokens_witness :
    renderFlag sliceCtx cacheDirFlag = ["--cache-dir=d1", "--cache-dir=d2"]
    ∧ (renderFlag sliceCtx cacheDirFlag).length = 2 := by
  have h := stringSliceFlag_tokens sliceCtx cacheDirFlag rfl rfl
  exact ⟨by rw [h.1]; rfl, by rw [h.2]; rfl⟩

/-- C10: a string flag marked as set always contributes a name=value
token, even when the resolved value is the empty string, in which case the
token ends with the equals sign; emission is decided solely by set-ness. -/
theorem stringFlag_token_even_when_empty (c : CliContext) (f : FlagSpec)
    (hk : f.kind = FlagKind.stringKind) (hs : c.isSet f.name = true) :
    renderFlag c f = ["--" ++ f.name ++ "=" ++ c.getString f.name]
    ∧ (c.getString f.name = "" → renderFlag c f = ["--" ++ f.name ++ "="]) := by
  have h : renderFlag c f = ["--" ++ f.name ++ "=" ++ c.getString f.name] := by
    simp [renderFlag, hs, hk]
  refine ⟨h, fun hv => ?_⟩
  rw [h, hv, String.append_empty]

/-- Witness for C10: a set bucket flag whose resolved value is the empty
string is rendered as the token with an empty value part. -/
theorem stringFlag_token_even_when_empty_witness :
    renderFlag emptyStringCtx bucketFlag = ["--bucket="] :=
  (stringFlag_token_even_when_empty emptyStringCtx bucketFlag rfl rfl).2 rfl

/-- C8: for the format and mount subcommands, the meta-location token
passed to the target command (the second token of the translated argument
list) is the original, unstripped caller-supplied value with the literal
badger scheme prefix prepended, so any query suffix after the question
mark is preserved intact. -/
theorem metaLocation_unstripped_token (fs : String → Bool) (c : CliContext) :
    (∀ l, pantheonFormat fs c = Except.ok l → l[1]? = some ("badger://" ++ argGet c 0))
    ∧ (∀ l, pantheonMount fs c = Except.ok l → l[1]? = some ("badger://" ++ argGet c 0)) := by
  constructor
  · intro l hl
    unfold pantheonFormat at hl
    cases h : validateAbsolutePath fs (metaDirWithoutQuery (argGet c 0)) false with
    | some e => rw [h] at hl; exact absurd hl (by simp)
    | none =>
        rw [h] at hl
        simp only [Except.ok.injEq] at hl
        subst hl
        rfl
  · intro l hl
    unfold pantheonMount at hl
    cases h : validateAbsolutePath fs (metaDirWithoutQuery (argGet c 0)) true with
    | some e => rw [h] at hl; exact absurd hl (by simp)
    | none =>
        rw [h] at hl
        simp only [Except.ok.injEq] at hl
        subst hl
        rfl

/-- Witness for C8: both translations on the meta location
/data/myfs?cache=1 keep the query suffix intact in the second token,
behind the badger scheme prefix. -/
theorem metaLocation_unstripped_token_witness :
    (pantheonFormat fsNone ctxMetaCache = Except.ok formatCacheArgs
      ∧ formatCacheArgs[1]? = some ("badger://" ++ argGet ctxMetaCache 0))
    ∧ (pantheonMount fsMyfsExists ctxMetaCache = Except.ok mountCacheArgs
      ∧ mountCacheArgs[1]? = some ("badger://" ++ argGet ctxMetaCache 0)) :=
  ⟨⟨rfl, (metaLocation_unstripped_token fsNone ctxMetaCache).1 formatCacheArgs rfl⟩,
   ⟨rfl, (metaLocation_unstripped_token fsMyfsExists ctxMetaCache).2 mountCacheArgs rfl⟩⟩

/-- C1 counterexample: the claim that a translated format invocation can
never contain both the forced trash-days token and a caller-supplied
trash-days token is false: when the caller sets the inherited trash-days
flag to 5, the produced argument list contains both the forced token and
the caller's token. -/
theorem format_double_trash_days_cex :
    pantheonFormat fsNone ctxFormatTrash = Except.ok formatTrashArgs
    ∧ "--trash-days=999" ∈ formatTrashArgs
    ∧ "--trash-days=5" ∈ formatTrashArgs :=
  ⟨rfl, by decide, by decide⟩

/-- C1 as amended: for every successful format translation, the forced
trash-days token appears exactly once among the four translator-inserted
tokens (provided the caller's volume name is not itself that token) and is
placed before every caller-supplied flag token; a caller-supplied
trash-days token is appended after it rather than being prevented. -/
theorem pantheonFormat_forced_trash_days_once (fs : String → Bool) (c : CliContext)
    (l : List String) (hl : pantheonFormat fs c = Except.ok l)
    (hname : argGet c 1 ≠ "--trash-days=999") :
    l.take 4 = ["format", "badger://" ++ argGet c 0, argGet c 1, "--trash-days=999"]
    ∧ (l.take 4).count "--trash-days=999" = 1
    ∧ l.drop 4 = buildFlagArgs c := by
  unfold pantheonFormat at hl
  cases h : validateAbsolutePath fs (metaDirWithoutQuery (argGet c 0)) false with
  | some e => rw [h] at hl; exact absurd hl (by simp)
  | none =>
      rw [h] at hl
      simp only [Except.ok.injEq] at hl
      subst hl
      refine ⟨rfl, ?_, rfl⟩
      have h1 : (("format" : String) == "--trash-days=999") = false := by decide
      have h2 : (("badger://" ++ argGet c 0) == "--trash-days=999") = false :=
        beq_eq_false_iff_ne.mpr (badger_scheme_ne_trash_token (argGet c 0))
      have h3 : (argGet c 1 == "--trash-days=999") = false :=
        beq_eq_false_iff_ne.mpr hname
      simp [List.count_cons, h1, h2, h3]

/-- Witness for C1 as amended: the invocation with caller-set trash-days 5
has the forced token exactly once among the first four tokens and all
caller flag tokens after them. -/
theorem pantheonFormat_forced_trash_days_once_witness :
    formatTrashArgs.take 4
        = ["format", "badger://" ++ argGet ctxFormatTrash 0, argGet ctxFormatTrash 1,
           "--trash-days=999"]
    ∧ (formatTrashArgs.take 4).count "--trash-days=999" = 1
    ∧ formatTrashArgs.drop 4 = buildFlagArgs ctxFormatTrash :=
  pantheonFormat_forced_trash_days_once fsNone ctxFormatTrash formatTrashArgs rfl (by decide)

/-- C2 counterexample: the claim that the checkpoint subcommand's old and
new meta locations are truncated at the first question mark before
validation is false: with only /a existing, checkpointing from /a?x=1
aborts with a missing-path error, while the spec's stripping rule would
have validated /a and succeeded. -/
theorem checkpoint_no_query_stripping_cex :
    pantheonCheckpoint fsOnlySlashA ctxCheckpointQuery = Except.error PathError.pathMissing
    ∧ checkpointPerSpecStripping fsOnlySlashA ctxCheckpointQuery
        = Except.ok ["clone", "/a?x=1", "/b"] :=
  ⟨rfl, rfl⟩

/-- C2 as amended: the format and mount subcommands pass the meta location
truncated at the first question mark to the validator (their outcome is
exactly the stripped validation's outcome, and is unchanged under any
modification of the filesystem oracle at query-carrying paths), while the
checkpoint subcommand passes its old and new meta locations to the
validator unstripped. -/
theorem pantheon_query_stripping_amended (fs : String → Bool) (c : CliContext) :
    (∀ e, pantheonFormat fs c = Except.error e ↔
        validateAbsolutePath fs (metaDirWithoutQuery (argGet c 0)) false = some e)
    ∧ (∀ e, pantheonMount fs c = Except.error e ↔
        validateAbsolutePath fs (metaDirWithoutQuery (argGet c 0)) true = some e)
    ∧ (∀ e, pantheonCheckpoint fs c = Except.error e ↔
        (validateAbsolutePath fs (argGet c 0) true = some e
          ∨ (validateAbsolutePath fs (argGet c 0) true = none
              ∧ validateAbsolutePath fs (argGet c 1) false = some e)))
    ∧ (∀ fs₂, (∀ p, hasQuery p = false → fs p = fs₂ p) →
        pantheonFormat fs c = pantheonFormat fs₂ c
        ∧ pantheonMount fs c = pantheonMount fs₂ c) := by
  refine ⟨?_, ?_, ?_, ?_⟩
  · intro e
    unfold pantheonFormat
    cases h : validateAbsolutePath fs (metaDirWithoutQuery (argGet c 0)) false <;> simp
  · intro e
    unfold pantheonMount
    cases h : validateAbsolutePath fs (metaDirWithoutQuery (argGet c 0)) true <;> simp
  · intro e
    unfold pantheonCheckpoint
    cases h1 : validateAbsolutePath fs (argGet c 0) true with
    | some e1 => simp
    | none =>
        cases h2 : validateAbsolutePath fs (argGet c 1) false <;> simp
  · intro fs₂ hagree
    have hv : ∀ b, validateAbsolutePath fs (metaDirWithoutQuery (argGet c 0)) b
        = validateAbsolutePath fs₂ (metaDirWithoutQuery (argGet c 0)) b := by
      intro b
      exact validateAbsolutePath_fs_congr fs fs₂ _ b
        (hagree _ (hasQuery_metaDirWithoutQuery (argGet c 0)))
    constructor
    · unfold pantheonFormat; rw [hv false]
    · unfold pantheonMount; rw [hv true]

/-- Witness for C2 as amended: the oracle that recognises only the
query-carrying string and the oracle that recognises nothing agree on all
query-free paths, so format and mount behave identically under them. -/
theorem pantheon_query_stripping_amended_witness :
    pantheonFormat fsQueryOnly ctxMetaQuery = pantheonFormat fsNone ctxMetaQuery
    ∧ pantheonMount fsQueryOnly ctxMetaQuery = pantheonMount fsNone ctxMetaQuery :=
  (pantheon_query_stripping_amended fsQueryOnly ctxMetaQuery).2.2.2 fsNone (by
    intro p h
    by_cases hp : p = "/q?z"
    · subst hp
      exact absurd h (by decide)
    · show (p == "/q?z") = false
      exact beq_eq_false_iff_ne.mpr hp)

/-- C5: the token order produced by flag reconstruction equals the flag
schema's declared order and is independent of the order in which the
caller set the flags: permuting the caller's (duplicate-free) flag
settings leaves the reconstructed token list unchanged, and the output is
the schema-order concatenation of the per-flag token blocks. -/
theorem buildFlagArgs_schema_order (flags : List FlagSpec)
    (sets₁ sets₂ : List (String × FlagValue)) (hp : sets₁.Perm sets₂)
    (hnd : (sets₁.map Prod.fst).Nodup) :
    buildFlagArgs (contextOfSets flags sets₁) = buildFlagArgs (contextOfSets flags sets₂)
    ∧ buildFlagArgs (contextOfSets flags sets₁)
        = (flags.map (renderFlag (contextOfSets flags sets₁))).flatten := by
  have hlk : ∀ n, lookupVal sets₁ n = lookupVal sets₂ n := lookupVal_perm sets₁ sets₂ hp hnd
  have hrf : renderFlag (contextOfSets flags sets₁) = renderFlag (contextOfSets flags sets₂) := by
    funext f
    exact renderFlag_congr _ _ f (congrArg Option.isSome (hlk f.name))
      (congrArg boolOfVal (hlk f.name)) (congrArg stringOfVal (hlk f.name))
      (congrArg intOfVal (hlk f.name)) (congrArg int64OfVal (hlk f.name))
      (congrArg floatStrOfVal (hlk f.name)) (congrArg sliceOfVal (hlk f.name))
  constructor
  · rw [buildFlagArgs_eq_flatten, buildFlagArgs_eq_flatten, hrf]
    rfl
  · exact buildFlagArgs_eq_flatten _

/-- Witness for C5: setting bucket then debug and setting debug then
bucket reconstruct to the same token list, whose order (debug before
bucket) is the schema's declared order, not the caller's. -/
theorem buildFlagArgs_schema_order_witness :
    buildFlagArgs (contextOfSets debugBucketFlags setsBucketFirst)
        = buildFlagArgs (contextOfSets debugBucketFlags setsDebugFirst)
    ∧ buildFlagArgs (contextOfSets debugBucketFlags setsBucketFirst)
        = ["--debug", "--bucket=b1"] :=
  ⟨(buildFlagArgs_schema_order debugBucketFlags setsBucketFirst setsDebugFirst
      (by decide) (by decide)).1,
   by rfl⟩

end Pantheon
